import Mathlib

/-!
Verification development for the docker-tool repository: a shallow
embedding of the configuration loader (internal/config/config.go), the
nginx configuration manager (internal/nginx/manager.go), the container
watcher (internal/watcher/watcher.go) and the shipped nginx template
(conf/http.conf.tpl), with theorems settling the frozen claims about
them.

Modelling conventions:
- Go maps (map[string]T) are modelled as association lists with
  first-match lookup; iteration order, where Go leaves it unspecified,
  is the list order.
- The filesystem is an association list from path to file content;
  os.WriteFile and os.Remove are modelled as always succeeding (the
  claims under study do not concern I/O faults), and os.Remove on an
  absent path is a success, as the code ignores os.IsNotExist.
- text/template parsing and execution is an external library; it is
  kept abstract as a function parameter from template text and
  template data to Except Unit String (error = parse or execute
  failure, mirroring the three log-and-return-"" branches of
  buildHTTPConfigContent).  The shipped template conf/http.conf.tpl is
  embedded concretely as renderHTTPConfTpl.
- nat.Port values are raw strings such as "33000/tcp"; nat.Port.Port()
  (the numeric part before the slash) is natPortNumber.
- Machine integers (Go int) are modelled as Int; the ports involved
  never overflow.
-/

set_option maxRecDepth 8192

namespace DockerTool

/-! ## Association-list maps (model of Go map[string]T and of the filesystem) -/

/-- Lookup in an association list: the first binding of the key, if any. -/
def mapFind {α : Type} : List (String × α) → String → Option α
  | [], _ => none
  | (k, v) :: rest, key => if k = key then some v else mapFind rest key

/-- Map assignment: replace the first binding of the key, or append one. -/
def mapSet {α : Type} : List (String × α) → String → α → List (String × α)
  | [], key, v => [(key, v)]
  | (k, w) :: rest, key, v =>
      if k = key then (key, v) :: rest else (k, w) :: mapSet rest key v

/-- Map deletion: drop every binding of the key. -/
def mapDelete {α : Type} : List (String × α) → String → List (String × α)
  | [], _ => []
  | (k, w) :: rest, key =>
      if k = key then mapDelete rest key else (k, w) :: mapDelete rest key

/-! ## internal/config/config.go: data model -/

/-- ProxyConfig (config.go lines 53-59). -/
structure ProxyConfig where
  EnableWebSocket : Bool
  ClientMaxBodySize : String
  ProxyHTTPVersion : String
  ProxyHeaders : List String
  ProxyRedirect : String
deriving DecidableEq, Repr

/-- GlobalConfig (config.go lines 21-36).  StreamSNITemplateFile is the
field manager.go line 333 reads from the global section alongside the
other template paths. -/
structure GlobalConfig where
  NginxConfigDir : String
  StreamConfigDir : String
  NginxReloadCmd : String
  HTTPTemplateFile : String
  StreamTemplateFile : String
  StreamSNITemplateFile : String
  DefaultProxy : ProxyConfig
  HostIP : String
  SSLCertPath : String
  SSLKeyPath : String
  ForceHTTPS : Bool
deriving DecidableEq, Repr

/-- ServiceConfig (config.go lines 39-50).  EnableSNI, DomainRoutes and
StaticUpstreams are the per-service fields manager.go lines 176-178
copy into a new StreamConfig. -/
structure ServiceConfig where
  Name : String
  /-- The Go field is named Type (a Lean keyword), values "http" or "stream". -/
  ServiceType : String
  ContainerName : String
  Domain : String
  Path : String
  Port : Int
  ListenPort : Int
  ContainerPort : Int
  UpstreamName : String
  ProxyConfig : Option ProxyConfig
  EnableSNI : Bool
  DomainRoutes : List (String × String)
  StaticUpstreams : List (String × List String)
deriving DecidableEq, Repr

/-- The persistent state of a loaded *config.Config: the two unmarshalled
sections plus the remembered source path and modification time
(config.go lines 13-18). -/
structure ConfigState where
  Global : GlobalConfig
  Services : List ServiceConfig
  filePath : String
  lastMod : Int
deriving DecidableEq, Repr

/-- The result of yaml.Unmarshal into a Config value: the two declared
sections.  Parsing YAML itself is external; a parser is a function
String to Option YamlConfig (none = unmarshal error). -/
structure YamlConfig where
  Global : GlobalConfig
  Services : List ServiceConfig
deriving DecidableEq, Repr

/-! ## internal/config/config.go: operations -/

/-- Validate (config.go lines 109-122): global section only. -/
def configValidate (g : GlobalConfig) : Except String Unit :=
  if g.NginxConfigDir = "" then .error "nginx_config_dir must not be empty"
  else if g.StreamConfigDir = "" then .error "stream_config_dir must not be empty"
  else if g.NginxReloadCmd = "" then .error "nginx_reload_cmd must not be empty"
  else .ok ()

/-- ValidateService (config.go lines 125-158). -/
def ValidateService (service : ServiceConfig) : Except String Unit :=
  if service.Name = "" then .error "service name must not be empty"
  else if service.ServiceType ≠ "http" ∧ service.ServiceType ≠ "stream" then
    .error "service type must be http or stream"
  else if service.ContainerName = "" then .error "container_name must not be empty"
  else if service.UpstreamName = "" then .error "upstream_name must not be empty"
  else if service.ServiceType = "http" ∧ service.Domain = "" then
    .error "http service domain must not be empty"
  else if service.ServiceType = "http" ∧ service.Port = 0 then
    .error "http service port must not be empty"
  else if service.ServiceType = "stream" ∧ service.ListenPort = 0 then
    .error "stream service listen_port must not be empty"
  else if service.ServiceType = "stream" ∧ service.ContainerPort = 0 then
    .error "stream service container_port must not be empty"
  else .ok ()

/-- strings.TrimPrefix(s, "/"): drop one leading slash when present
(config.go lines 163 and 167), written over the character list so that
it evaluates by kernel reduction. -/
def stripSlash (s : String) : String :=
  match s.data with
  | '/' :: rest => String.mk rest
  | _ => s

/-- GetServiceByContainerName (config.go lines 161-173): first declared
service whose container_name, with one leading slash stripped, equals
the reported name with one leading slash stripped. -/
def GetServiceByContainerName : List ServiceConfig → String → Option ServiceConfig
  | [], _ => none
  | service :: rest, containerName =>
      if stripSlash service.ContainerName = stripSlash containerName then
        some service
      else GetServiceByContainerName rest containerName

/-- Load (config.go lines 62-85): read the file, unmarshal, remember
path and modification time, validate the global section.  `fs` is the
readable filesystem, `parse` the external YAML unmarshaller, `mtime`
the stat modification time (none = stat error, leaving lastMod zero). -/
def configLoad (parse : String → Option YamlConfig) (fs : String → Option String)
    (mtime : String → Option Int) (filename : String) : Except String ConfigState :=
  match fs filename with
  | none => .error "reading the config file failed"
  | some data =>
    match parse data with
    | none => .error "parsing the config file failed"
    | some doc =>
      let cfg : ConfigState :=
        { Global := doc.Global, Services := doc.Services,
          filePath := filename, lastMod := (mtime filename).getD 0 }
      match configValidate cfg.Global with
      | .error e => .error ("config validation failed: " ++ e)
      | .ok _ => .ok cfg

/-- Reload (config.go lines 88-97): Load from the remembered path; on
error return it leaving the receiver untouched, on success replace the
whole value at once.  Result: the new state and the error, if any. -/
def configReload (parse : String → Option YamlConfig) (fs : String → Option String)
    (mtime : String → Option Int) (c : ConfigState) : ConfigState × Option String :=
  match configLoad parse fs mtime c.filePath with
  | .error e => (c, some e)
  | .ok newConfig => (newConfig, none)

/-! ## internal/nginx/manager.go: data model -/

/-- UpstreamServer (manager.go lines 49-52); Port is a raw nat.Port
string such as "33000/tcp". -/
structure UpstreamServer where
  IP : String
  Port : String
deriving DecidableEq, Repr

/-- HTTPConfig (manager.go lines 29-35). -/
structure HTTPConfig where
  ServiceName : String
  Domain : String
  Path : String
  Upstream : List UpstreamServer
  ProxyConfig : Option ProxyConfig
deriving DecidableEq, Repr

/-- StreamConfig (manager.go lines 38-46). -/
structure StreamConfig where
  ServiceName : String
  ListenPort : Int
  Upstream : List UpstreamServer
  EnableSNI : Bool
  DomainRoutes : List (String × String)
  StaticUpstreams : List (String × List String)
deriving DecidableEq, Repr

/-- HTTPTemplateData (manager.go lines 55-70). -/
structure HTTPTemplateData where
  ServiceName : String
  Domain : String
  Path : String
  Upstream : List UpstreamServer
  EnableWebSocket : Bool
  ClientMaxBodySize : String
  ProxyHTTPVersion : String
  ProxyHeaders : List String
  ProxyRedirect : String
  EnableSSL : Bool
  SSLCertificate : String
  SSLCertificateKey : String
  ForceHTTPS : Bool
deriving DecidableEq, Repr

/-- StreamTemplateData (manager.go lines 73-82). -/
structure StreamTemplateData where
  ServiceName : String
  ListenPort : Int
  Upstream : List UpstreamServer
  EnableSNI : Bool
  DomainRoutes : List (String × String)
  DefaultRoute : String
  StaticUpstreams : List (String × List String)
deriving DecidableEq, Repr

/-- The mutable manager state (manager.go lines 21-26) together with the
on-disk configuration directories it writes: config is the *config.Config
the manager currently holds, fs the filesystem (path to content). -/
structure ManagerState where
  config : ConfigState
  httpConfigs : List (String × HTTPConfig)
  streamConfigs : List (String × StreamConfig)
  fs : List (String × String)
deriving DecidableEq, Repr

/-- A text/template parse-and-execute step for HTTP template data:
external library behaviour, abstract in the model.  error () stands for
the parse-failure and execute-failure branches of
buildHTTPConfigContent (manager.go lines 300-311). -/
def HTTPTemplateExec : Type := String → HTTPTemplateData → Except Unit String

/-- A text/template parse-and-execute step for stream template data
(manager.go lines 347-358). -/
def StreamTemplateExec : Type := String → StreamTemplateData → Except Unit String

/-! ## internal/nginx/manager.go: operations -/

/-- updateUpstreamServer (manager.go lines 201-211): replace the first
entry with the same IP, otherwise append. -/
def updateUpstreamServer : List UpstreamServer → UpstreamServer → List UpstreamServer
  | [], server => [server]
  | existingServer :: rest, server =>
      if existingServer.IP = server.IP then server :: rest
      else existingServer :: updateUpstreamServer rest server

/-- removeUpstreamServer (manager.go lines 214-221): remove the first
entry with the given IP, if any, and stop. -/
def removeUpstreamServer : List UpstreamServer → String → List UpstreamServer
  | [], _ => []
  | server :: rest, ip =>
      if server.IP = ip then rest
      else server :: removeUpstreamServer rest ip

/-- filepath.Join for the directory-plus-filename uses in manager.go. -/
def joinPath (dir filename : String) : String := dir ++ "/" ++ filename

/-- loadTemplate (manager.go lines 85-108): empty path or missing file
is an error, otherwise the file content. -/
def loadTemplate (fs : List (String × String)) (templateFile : String) :
    Except String String :=
  if templateFile = "" then .error "template path is empty"
  else
    match mapFind fs templateFile with
    | none => .error ("template file does not exist: " ++ templateFile)
    | some content => .ok content

/-- The HTTPTemplateData prepared by buildHTTPConfigContent
(manager.go lines 268-290): per-service proxy settings with fallback to
the global default, SSL enabled when both cert and key paths are set. -/
def mkHTTPTemplateData (g : GlobalConfig) (httpConfig : HTTPConfig) : HTTPTemplateData :=
  let proxyConfig := match httpConfig.ProxyConfig with
    | some pc => pc
    | none => g.DefaultProxy
  { ServiceName := httpConfig.ServiceName
    Domain := httpConfig.Domain
    Path := httpConfig.Path
    Upstream := httpConfig.Upstream
    EnableWebSocket := proxyConfig.EnableWebSocket
    ClientMaxBodySize := proxyConfig.ClientMaxBodySize
    ProxyHTTPVersion := proxyConfig.ProxyHTTPVersion
    ProxyHeaders := proxyConfig.ProxyHeaders
    ProxyRedirect := proxyConfig.ProxyRedirect
    EnableSSL := g.SSLCertPath ≠ "" ∧ g.SSLKeyPath ≠ ""
    SSLCertificate := g.SSLCertPath
    SSLCertificateKey := g.SSLKeyPath
    ForceHTTPS := g.ForceHTTPS }

/-- The rendering pipeline of buildHTTPConfigContent (manager.go lines
292-311): load the template file, then parse and execute it on the
prepared data; error () collapses the load-, parse- and
execute-failure branches. -/
def httpRenderResult (exec : HTTPTemplateExec) (st : ManagerState)
    (httpConfig : HTTPConfig) : Except Unit String :=
  match loadTemplate st.fs st.config.Global.HTTPTemplateFile with
  | .error _ => .error ()
  | .ok templateContent =>
    exec templateContent (mkHTTPTemplateData st.config.Global httpConfig)

/-- buildHTTPConfigContent (manager.go lines 267-314): any rendering
failure is logged and yields the empty string. -/
def buildHTTPConfigContent (exec : HTTPTemplateExec) (st : ManagerState)
    (httpConfig : HTTPConfig) : String :=
  match httpRenderResult exec st httpConfig with
  | .error _ => ""
  | .ok rendered => rendered

/-- The StreamTemplateData prepared by buildStreamConfigContent
(manager.go lines 319-327); DefaultRoute is the service name. -/
def mkStreamTemplateData (streamConfig : StreamConfig) : StreamTemplateData :=
  { ServiceName := streamConfig.ServiceName
    ListenPort := streamConfig.ListenPort
    Upstream := streamConfig.Upstream
    EnableSNI := streamConfig.EnableSNI
    DomainRoutes := streamConfig.DomainRoutes
    DefaultRoute := streamConfig.ServiceName
    StaticUpstreams := streamConfig.StaticUpstreams }

/-- buildStreamConfigContent (manager.go lines 317-361): pick the SNI
template (with a built-in default path) when SNI is enabled, load,
parse and execute; any failure yields "". -/
def buildStreamConfigContent (exec : StreamTemplateExec) (st : ManagerState)
    (streamConfig : StreamConfig) : String :=
  let templateFile :=
    if streamConfig.EnableSNI then
      if st.config.Global.StreamSNITemplateFile = "" then "conf/stream-sni.conf.tpl"
      else st.config.Global.StreamSNITemplateFile
    else st.config.Global.StreamTemplateFile
  match loadTemplate st.fs templateFile with
  | .error _ => ""
  | .ok templateContent =>
    match exec templateContent (mkStreamTemplateData streamConfig) with
    | .error _ => ""
    | .ok rendered => rendered

/-- deleteHTTPConfig (manager.go lines 364-375): remove
NginxConfigDir/name.conf, treating an already absent file as success,
and drop the in-memory entry. -/
def deleteHTTPConfig (st : ManagerState) (serviceName : String) : ManagerState :=
  let filename := serviceName ++ ".conf"
  let path := joinPath st.config.Global.NginxConfigDir filename
  { st with fs := mapDelete st.fs path,
            httpConfigs := mapDelete st.httpConfigs serviceName }

/-- deleteStreamConfig (manager.go lines 378-389). -/
def deleteStreamConfig (st : ManagerState) (serviceName : String) : ManagerState :=
  let filename := serviceName ++ ".conf"
  let path := joinPath st.config.Global.StreamConfigDir filename
  { st with fs := mapDelete st.fs path,
            streamConfigs := mapDelete st.streamConfigs serviceName }

/-- generateHTTPConfig (manager.go lines 224-242): no members means
delete the artifact, otherwise build the content and write it over
NginxConfigDir/name.conf. -/
def generateHTTPConfig (exec : HTTPTemplateExec) (st : ManagerState)
    (httpConfig : HTTPConfig) : ManagerState :=
  if httpConfig.Upstream.isEmpty then
    deleteHTTPConfig st httpConfig.ServiceName
  else
    let configContent := buildHTTPConfigContent exec st httpConfig
    let filename := httpConfig.ServiceName ++ ".conf"
    let path := joinPath st.config.Global.NginxConfigDir filename
    { st with fs := mapSet st.fs path configContent }

/-- generateStreamConfig (manager.go lines 245-264): delete only when
there are no members and SNI is not enabled; otherwise build and write
StreamConfigDir/name.conf. -/
def generateStreamConfig (exec : StreamTemplateExec) (st : ManagerState)
    (streamConfig : StreamConfig) : ManagerState :=
  if streamConfig.Upstream.isEmpty ∧ streamConfig.EnableSNI = false then
    deleteStreamConfig st streamConfig.ServiceName
  else
    let configContent := buildStreamConfigContent exec st streamConfig
    let filename := streamConfig.ServiceName ++ ".conf"
    let path := joinPath st.config.Global.StreamConfigDir filename
    { st with fs := mapSet st.fs path configContent }

/-- updateHTTPService (manager.go lines 136-165): fetch or create the
entry (capturing Domain, Path and ProxyConfig only on creation), then
upsert when both IP and port are non-empty, else remove by IP, and
regenerate the artifact. -/
def updateHTTPService (exec : HTTPTemplateExec) (st : ManagerState)
    (service : ServiceConfig) (containerIP containerPort : String) : ManagerState :=
  let httpConfig :=
    match mapFind st.httpConfigs service.Name with
    | some hc => hc
    | none =>
      { ServiceName := service.Name, Domain := service.Domain,
        Path := service.Path, Upstream := [], ProxyConfig := service.ProxyConfig }
  let httpConfig :=
    if containerIP ≠ "" ∧ containerPort ≠ "" then
      { httpConfig with
          Upstream := updateUpstreamServer httpConfig.Upstream
            { IP := containerIP, Port := containerPort } }
    else
      { httpConfig with
          Upstream := removeUpstreamServer httpConfig.Upstream containerIP }
  let st := { st with httpConfigs := mapSet st.httpConfigs service.Name httpConfig }
  generateHTTPConfig exec st httpConfig

/-- updateStreamService (manager.go lines 168-198). -/
def updateStreamService (exec : StreamTemplateExec) (st : ManagerState)
    (service : ServiceConfig) (containerIP containerPort : String) : ManagerState :=
  let streamConfig :=
    match mapFind st.streamConfigs service.Name with
    | some sc => sc
    | none =>
      { ServiceName := service.Name, ListenPort := service.ListenPort,
        Upstream := [], EnableSNI := service.EnableSNI,
        DomainRoutes := service.DomainRoutes,
        StaticUpstreams := service.StaticUpstreams }
  let streamConfig :=
    if containerIP ≠ "" ∧ containerPort ≠ "" then
      { streamConfig with
          Upstream := updateUpstreamServer streamConfig.Upstream
            { IP := containerIP, Port := containerPort } }
    else
      { streamConfig with
          Upstream := removeUpstreamServer streamConfig.Upstream containerIP }
  let st := { st with streamConfigs := mapSet st.streamConfigs service.Name streamConfig }
  generateStreamConfig exec st streamConfig

/-- UpdateService (manager.go lines 121-133): dispatch on the service
type; an unrecognized type is an error and changes nothing. -/
def UpdateService (hexec : HTTPTemplateExec) (sexec : StreamTemplateExec)
    (st : ManagerState) (service : ServiceConfig)
    (containerIP containerPort : String) : Except String ManagerState :=
  match service.ServiceType with
  | "http" => .ok (updateHTTPService hexec st service containerIP containerPort)
  | "stream" => .ok (updateStreamService sexec st service containerIP containerPort)
  | other => .error ("unsupported service type: " ++ other)

/-! ## internal/watcher/watcher.go: container metadata and resolution -/

/-- One network attachment as ContainerInspect reports it (the part of
types.NetworkSettings.Networks the watcher reads). -/
structure NetworkInfo where
  IPAddress : String
deriving DecidableEq, Repr

/-- One host-side port binding (the HostPort field read at watcher.go
lines 328 and 336). -/
structure PortBinding where
  HostPort : String
deriving DecidableEq, Repr

/-- The container inspection data the watcher reads: name, the
name-to-network map and the published/exposed port table keyed by
nat.Port strings such as "9000/tcp".  Go iterates Networks in
unspecified map order; the model iterates in list order. -/
structure ContainerInfo where
  Name : String
  Networks : List (String × NetworkInfo)
  Ports : List (String × List PortBinding)
deriving DecidableEq, Repr

/-- The macvlan scan of getContainerIP (watcher.go lines 290-294): the
first non-bridge network with a non-empty IP. -/
def findNonBridgeIP : List (String × NetworkInfo) → Option String
  | [] => none
  | (networkName, network) :: rest =>
      if networkName ≠ "bridge" ∧ network.IPAddress ≠ "" then some network.IPAddress
      else findNonBridgeIP rest

/-- getContainerIP (watcher.go lines 282-302): host network gives the
configured host IP; then any non-bridge network with an IP; then bridge
gives the host IP; otherwise empty. -/
def getContainerIP (g : GlobalConfig) (container : ContainerInfo) : String :=
  if (mapFind container.Networks "host").isSome then g.HostIP
  else
    match findNonBridgeIP container.Networks with
    | some ip => ip
    | none =>
      if (mapFind container.Networks "bridge").isSome then g.HostIP
      else ""

/-- The declared target port of getContainerPort (watcher.go lines
306-312): Port for http, ContainerPort for stream, zero otherwise. -/
def targetPortOf (service : ServiceConfig) : Int :=
  if service.ServiceType = "http" then service.Port
  else if service.ServiceType = "stream" then service.ContainerPort
  else 0

/-- The first host-side binding of a port table entry, when the entry
exists and is non-empty (the exists-and-len-positive checks at
watcher.go lines 326 and 335). -/
def firstHostPort (ports : List (String × List PortBinding)) (key : String) :
    Option String :=
  match mapFind ports key with
  | some (binding :: _) => some binding.HostPort
  | _ => none

/-- getContainerPort (watcher.go lines 305-359): host network returns
the target port as tcp; on bridge, the first host binding for the
target port, tcp then udp; then the exposure fallback: the target port
itself if listed in the port table as tcp or udp, and finally the
target port as tcp unconditionally. -/
def getContainerPort (container : ContainerInfo) (service : ServiceConfig) : String :=
  let targetPort := targetPortOf service
  let tcpKey := toString targetPort ++ "/tcp"
  let udpKey := toString targetPort ++ "/udp"
  if (mapFind container.Networks "host").isSome then tcpKey
  else
    let bridged : Option String :=
      if (mapFind container.Networks "bridge").isSome then
        match firstHostPort container.Ports tcpKey with
        | some hostPort => some (hostPort ++ "/tcp")
        | none =>
          match firstHostPort container.Ports udpKey with
          | some hostPort => some (hostPort ++ "/udp")
          | none => none
      else none
    match bridged with
    | some port => port
    | none =>
      if (mapFind container.Ports tcpKey).isSome then tcpKey
      else if (mapFind container.Ports udpKey).isSome then udpKey
      else tcpKey

/-! ## internal/watcher/watcher.go: the reconciliation step -/

/-- The tail of updateNginxConfig (watcher.go lines 266-279): call
UpdateService, and on success invoke the nginx reload command.  The
Bool records whether the reload command was invoked; a reload failure
is only logged and does not undo the state. -/
def applyServiceUpdate (hexec : HTTPTemplateExec) (sexec : StreamTemplateExec)
    (st : ManagerState) (service : ServiceConfig)
    (containerIP containerPort : String) : ManagerState × Bool :=
  match UpdateService hexec sexec st service containerIP containerPort with
  | .error _ => (st, false)
  | .ok st2 => (st2, true)

/-- updateNginxConfig (watcher.go lines 246-279): with a container,
resolve IP and port and skip when either is empty; with nil (the stop
path) proceed directly with empty IP and port. -/
def updateNginxConfig (hexec : HTTPTemplateExec) (sexec : StreamTemplateExec)
    (st : ManagerState) (service : ServiceConfig)
    (container : Option ContainerInfo) : ManagerState × Bool :=
  match container with
  | some c =>
    let containerIP := getContainerIP st.config.Global c
    let containerPort := getContainerPort c service
    if containerIP = "" then (st, false)
    else if containerPort = "" then (st, false)
    else applyServiceUpdate hexec sexec st service containerIP containerPort
  | none => applyServiceUpdate hexec sexec st service "" ""

/-- handleContainerStop (watcher.go lines 155-176): inspect the
container (none = inspection error), match it to a declared service,
validate the service, then update with a nil container. -/
def handleContainerStop (hexec : HTTPTemplateExec) (sexec : StreamTemplateExec)
    (services : List ServiceConfig) (st : ManagerState)
    (inspected : Option ContainerInfo) : ManagerState × Bool :=
  match inspected with
  | none => (st, false)
  | some container =>
    match GetServiceByContainerName services container.Name with
    | none => (st, false)
    | some service =>
      match ValidateService service with
      | .error _ => (st, false)
      | .ok _ => updateNginxConfig hexec sexec st service none

/-- handleContainerStart (watcher.go lines 129-152): as stop, but the
inspected container is passed through to updateNginxConfig. -/
def handleContainerStart (hexec : HTTPTemplateExec) (sexec : StreamTemplateExec)
    (services : List ServiceConfig) (st : ManagerState)
    (inspected : Option ContainerInfo) : ManagerState × Bool :=
  match inspected with
  | none => (st, false)
  | some container =>
    match GetServiceByContainerName services container.Name with
    | none => (st, false)
    | some service =>
      match ValidateService service with
      | .error _ => (st, false)
      | .ok _ => updateNginxConfig hexec sexec st service (some container)

/-! ## conf/http.conf.tpl: the shipped HTTP template as a rendering function

Go text/template semantics used below: plain text between actions is
emitted verbatim; an action opening with two braces and a dash trims
the whitespace (spaces and newlines) immediately before it; an `if` on
a string field tests non-emptiness; `range` repeats its body per
element.  Braces that are literal template output are written with the
escapes \x7b and \x7d. -/

/-- nat.Port.Port(): the numeric part of a "33000/tcp"-style port
string, everything before the first slash. -/
def natPortNumber (p : String) : String :=
  String.mk (p.toList.takeWhile (fun c => c ≠ '/'))

/-- Conditional emission, the rendering of a guarded template block. -/
def tplIf (cond : Prop) [Decidable cond] (s : String) : String :=
  if cond then s else ""

/-- The location block shared by the SSL branch (template lines 41-65)
and the plain branch (template lines 73-97): proxied location with
optional websocket upgrade, body-size limit, http version, injected
headers and redirect directive.  The proxy_pass target is the service
name. -/
def renderLocationBlock (d : HTTPTemplateData) : String :=
  "    location " ++ d.Path ++ " \x7b"
  ++ tplIf (d.EnableWebSocket = true)
      "\n        proxy_http_version 1.1;\n        proxy_set_header Upgrade $http_upgrade;\n        proxy_set_header Connection $connection_upgrade;"
  ++ tplIf (d.ClientMaxBodySize ≠ "")
      ("\n        client_max_body_size " ++ d.ClientMaxBodySize ++ ";")
  ++ "\n\n        proxy_pass http://" ++ d.ServiceName ++ "/;"
  ++ tplIf (d.ProxyHTTPVersion ≠ "")
      ("\n        proxy_http_version " ++ d.ProxyHTTPVersion ++ ";")
  ++ String.join (d.ProxyHeaders.map
      (fun h => "\n        proxy_set_header " ++ h ++ ";"))
  ++ tplIf (d.ProxyRedirect ≠ "")
      ("\n        proxy_redirect " ++ d.ProxyRedirect ++ ";")
  ++ "\n    \x7d\n\x7d"

/-- The SSL server branch of the template (lines 14-66): optional
HTTP-to-HTTPS redirect server, then the TLS server with optional
certificate directives and the location block. -/
def renderSSLServer (d : HTTPTemplateData) : String :=
  tplIf (d.ForceHTTPS = true)
    ("\n# HTTP 到 HTTPS 重定向\nserver \x7b\n    listen          80;\n    listen          [::]:80;\n\n    server_name     "
      ++ d.Domain ++ ";\n    rewrite ^(.*)$  https://$host$1 permanent;\n\x7d")
  ++ "\n\n# HTTPS 服务器配置\nserver \x7b\n    listen  443       ssl;\n    listen  [::]:443  ssl;\n    http2   on;\n\n    server_name "
  ++ d.Domain ++ ";"
  ++ tplIf (d.SSLCertificate ≠ "")
      ("\n    ssl_certificate     " ++ d.SSLCertificate ++ ";")
  ++ tplIf (d.SSLCertificateKey ≠ "")
      ("\n    ssl_certificate_key " ++ d.SSLCertificateKey ++ ";")
  ++ "\n\n" ++ renderLocationBlock d

/-- The plain HTTP server branch of the template (lines 67-98). -/
def renderPlainServer (d : HTTPTemplateData) : String :=
  "\n# HTTP 服务器配置\nserver \x7b\n    listen 80;\n    server_name " ++ d.Domain
  ++ ";\n\n" ++ renderLocationBlock d

/-- conf/http.conf.tpl applied to HTTPTemplateData: the optional
websocket upgrade map, the upstream block named by ServiceName with one
server line per member, and the server block for the SSL or plain
branch. -/
def renderHTTPConfTpl (d : HTTPTemplateData) : String :=
  tplIf (d.EnableWebSocket = true)
    "\nmap $http_upgrade $connection_upgrade \x7b\n    default upgrade;\n    \x27\x27 close;\n\x7d"
  ++ "\n\nupstream " ++ d.ServiceName ++ " \x7b"
  ++ String.join (d.Upstream.map
      (fun s => "\n    server " ++ s.IP ++ ":" ++ natPortNumber s.Port ++ ";"))
  ++ "\n\x7d"
  ++ (if d.EnableSSL then renderSSLServer d else renderPlainServer d)
  ++ "\n"

/-- The template engine of the running system for HTTP services: the
repository ships conf/http.conf.tpl, whose parse-and-execute behaviour
is renderHTTPConfTpl.  The loaded template text is not re-parsed by
the model; load success is checked by loadTemplate. -/
def shippedHTTPTemplateExec : HTTPTemplateExec :=
  fun _ d => .ok (renderHTTPConfTpl d)

/-- A stream template engine that renders nothing: enough for the
claims under study, none of which constrains stream artifact text. -/
def emptyStreamTemplateExec : StreamTemplateExec :=
  fun _ _ => .ok ""

/-! ## Substring search, for stating what a rendered artifact contains -/

/-- Whether `pat` is a prefix of `l`. -/
def charsHavePrefix : List Char → List Char → Bool
  | [], _ => true
  | _ :: _, [] => false
  | a :: as, b :: bs => a = b && charsHavePrefix as bs

/-- Whether `pat` occurs contiguously inside `l`. -/
def charsHaveInfix (pat : List Char) : List Char → Bool
  | [] => charsHavePrefix pat []
  | b :: bs => charsHavePrefix pat (b :: bs) || charsHaveInfix pat bs

/-- Whether `pat` occurs contiguously inside `s`. -/
def containsSubstring (s pat : String) : Bool :=
  charsHaveInfix pat.toList s.toList

/-! ## The replay model of claim C1: upsert/remove sequences as a finite map -/

/-- One registry mutation on a service's member list: an upsert carrying
a member (UpdateService with non-empty IP and port) or a removal keyed
by IP (UpdateService with empty IP or port, which passes the given,
possibly empty, IP to removeUpstreamServer). -/
inductive UpstreamOp where
  | upsert (server : UpstreamServer)
  | remove (ip : String)
deriving DecidableEq, Repr

/-- Apply one mutation with the code's list operations. -/
def applyUpstreamOp (upstream : List UpstreamServer) : UpstreamOp → List UpstreamServer
  | .upsert server => updateUpstreamServer upstream server
  | .remove ip => removeUpstreamServer upstream ip

/-- Replay a whole sequence from the empty member list (a fresh entry
starts with Upstream := make([]UpstreamServer, 0)). -/
def runUpstreamOps (ops : List UpstreamOp) : List UpstreamServer :=
  ops.foldl applyUpstreamOp []

/-- The port stored for an address in a member list: the first entry
with that IP. -/
def lookupMember (upstream : List UpstreamServer) (ip : String) : Option String :=
  match upstream with
  | [] => none
  | server :: rest => if server.IP = ip then some server.Port else lookupMember rest ip

/-- One mutation on the specification-side finite map keyed by address:
upsert is map-assignment, remove is map-deletion. -/
def specMapStep (f : String → Option String) : UpstreamOp → String → Option String
  | .upsert server, key => if key = server.IP then some server.Port else f key
  | .remove ip, key => if key = ip then none else f key

/-- Replay a whole sequence on the empty finite map. -/
def runSpecMap (ops : List UpstreamOp) : String → Option String :=
  ops.foldl specMapStep (fun _ => none)

/-- The addresses of a member list. -/
def memberIPs (upstream : List UpstreamServer) : List String :=
  upstream.map (fun server => server.IP)

/-! ## Concrete fixtures (the README example configuration) -/

/-- A default proxy section with nothing enabled. -/
def demoProxy : ProxyConfig :=
  { EnableWebSocket := false, ClientMaxBodySize := "", ProxyHTTPVersion := "",
    ProxyHeaders := [], ProxyRedirect := "" }

/-- The README example global section, no SSL. -/
def demoGlobal : GlobalConfig :=
  { NginxConfigDir := "/etc/nginx/conf.d", StreamConfigDir := "/etc/nginx/stream.d",
    NginxReloadCmd := "docker exec nginx-ui nginx -s reload",
    HTTPTemplateFile := "conf/http.conf.tpl",
    StreamTemplateFile := "conf/stream.conf.tpl", StreamSNITemplateFile := "",
    DefaultProxy := demoProxy, HostIP := "192.168.31.1",
    SSLCertPath := "", SSLKeyPath := "", ForceHTTPS := false }

/-- The README example http service: name api-service, container
my-api-container, port 9000, upstream_name api_backend. -/
def apiService : ServiceConfig :=
  { Name := "api-service", ServiceType := "http",
    ContainerName := "my-api-container", Domain := "api.example.com",
    Path := "/", Port := 9000, ListenPort := 0, ContainerPort := 0,
    UpstreamName := "api_backend", ProxyConfig := none,
    EnableSNI := false, DomainRoutes := [], StaticUpstreams := [] }

/-- The loaded declared configuration of the fixtures. -/
def demoConfigState : ConfigState :=
  { Global := demoGlobal, Services := [apiService],
    filePath := "conf/config.yaml", lastMod := 0 }

/-- The member registered for api-service once its bridge container
started with host port 33000 published for container port 9000. -/
def apiMember : UpstreamServer := { IP := "192.168.31.1", Port := "33000/tcp" }

/-- The api-service registry entry holding that one member. -/
def apiHTTPEntry : HTTPConfig :=
  { ServiceName := "api-service", Domain := "api.example.com", Path := "/",
    Upstream := [apiMember], ProxyConfig := none }

/-- Where the api-service artifact lives. -/
def apiArtifactPath : String := "/etc/nginx/conf.d/api-service.conf"

/-- The running api container as inspection reports it: on the default
bridge network with host port 33000 bound to 9000/tcp. -/
def apiRunningContainer : ContainerInfo :=
  { Name := "/my-api-container",
    Networks := [("bridge", { IPAddress := "172.17.0.2" })],
    Ports := [("9000/tcp", [{ HostPort := "33000" }])] }

/-- The same container on the bridge network but with no published port
binding and an empty exposure table. -/
def apiUnboundContainer : ContainerInfo :=
  { Name := "/my-api-container",
    Networks := [("bridge", { IPAddress := "172.17.0.2" })],
    Ports := [] }

/-- Manager state before any container event: template present, no
entries, no artifacts.  The template file's stored text is a
placeholder; its parse-and-execute behaviour is shippedHTTPTemplateExec. -/
def freshState : ManagerState :=
  { config := demoConfigState, httpConfigs := [], streamConfigs := [],
    fs := [("conf/http.conf.tpl", "placeholder template text")] }

/-- Manager state with the api-service member registered and its
artifact on disk. -/
def registeredState : ManagerState :=
  { config := demoConfigState,
    httpConfigs := [("api-service", apiHTTPEntry)], streamConfigs := [],
    fs := [("conf/http.conf.tpl", "placeholder template text"),
           (apiArtifactPath, "previous artifact")] }

/-- Manager state whose http template file is missing from disk, with
the api-service entry and its previous artifact still present. -/
def missingTemplateState : ManagerState :=
  { config := demoConfigState,
    httpConfigs := [("api-service", apiHTTPEntry)], streamConfigs := [],
    fs := [(apiArtifactPath, "previous artifact")] }

/-- A stream registry entry with SNI routing enabled and no members. -/
def sniStreamEntry : StreamConfig :=
  { ServiceName := "sni-service", ListenPort := 443, Upstream := [],
    EnableSNI := true, DomainRoutes := [("a.example.com", "up_a")],
    StaticUpstreams := [("up_a", ["10.0.0.5:443"])] }

/-- Where the sni-service artifact lives. -/
def sniArtifactPath : String := "/etc/nginx/stream.d/sni-service.conf"

/-- Manager state holding the empty-membered SNI stream entry and its
artifact. -/
def sniState : ManagerState :=
  { config := demoConfigState, httpConfigs := [],
    streamConfigs := [("sni-service", sniStreamEntry)],
    fs := [("conf/stream-sni.conf.tpl", "placeholder template text"),
           (sniArtifactPath, "previous artifact")] }

/-! ## Lemmas about the association-list maps -/

theorem mapFind_mapSet_self {α : Type} (l : List (String × α)) (k : String) (v : α) :
    mapFind (mapSet l k v) k = some v := by
  induction l with
  | nil => simp [mapSet, mapFind]
  | cons p rest ih =>
    obtain ⟨k0, v0⟩ := p
    by_cases h : k0 = k
    · simp [mapSet, h, mapFind]
    · simp [mapSet, h, mapFind, ih]

theorem mapFind_mapDelete_self {α : Type} (l : List (String × α)) (k : String) :
    mapFind (mapDelete l k) k = none := by
  induction l with
  | nil => simp [mapDelete, mapFind]
  | cons p rest ih =>
    obtain ⟨k0, v0⟩ := p
    by_cases h : k0 = k
    · simp [mapDelete, h, ih]
    · simp [mapDelete, h, mapFind, ih]

/-! ## Lemmas about updateUpstreamServer and removeUpstreamServer -/

theorem lookupMember_update_self (l : List UpstreamServer) (s : UpstreamServer) :
    lookupMember (updateUpstreamServer l s) s.IP = some s.Port := by
  induction l with
  | nil => simp [updateUpstreamServer, lookupMember]
  | cons e rest ih =>
    by_cases h : e.IP = s.IP
    · simp [updateUpstreamServer, h, lookupMember]
    · simp [updateUpstreamServer, h, lookupMember, ih]

theorem lookupMember_update_ne (l : List UpstreamServer) (s : UpstreamServer)
    (ip : String) (h : ip ≠ s.IP) :
    lookupMember (updateUpstreamServer l s) ip = lookupMember l ip := by
  have hs : s.IP ≠ ip := Ne.symm h
  induction l with
  | nil => simp [updateUpstreamServer, lookupMember, hs]
  | cons e rest ih =>
    by_cases he : e.IP = s.IP
    · have h2 : e.IP ≠ ip := he ▸ hs
      simp [updateUpstreamServer, he, lookupMember, hs, h2]
    · by_cases hei : e.IP = ip
      · simp [updateUpstreamServer, he, lookupMember, hei, h]
      · simp [updateUpstreamServer, he, lookupMember, hei, ih]

theorem mem_memberIPs_update (l : List UpstreamServer) (s : UpstreamServer) :
    ∀ x, x ∈ memberIPs (updateUpstreamServer l s) → x ∈ memberIPs l ∨ x = s.IP := by
  induction l with
  | nil =>
    intro x hx
    simp [updateUpstreamServer, memberIPs] at hx
    exact Or.inr hx
  | cons e rest ih =>
    intro x hx
    by_cases he : e.IP = s.IP
    · simp [updateUpstreamServer, he, memberIPs] at hx ⊢
      rcases hx with rfl | hx
      · exact Or.inr rfl
      · exact Or.inl (Or.inr hx)
    · simp [updateUpstreamServer, he, memberIPs] at hx ⊢
      rcases hx with rfl | hx
      · exact Or.inl (Or.inl rfl)
      · rcases ih x (by simpa [memberIPs] using hx) with hmem | heq
        · exact Or.inl (Or.inr (by simpa [memberIPs] using hmem))
        · exact Or.inr heq

theorem nodup_memberIPs_update (l : List UpstreamServer) (s : UpstreamServer)
    (h : (memberIPs l).Nodup) : (memberIPs (updateUpstreamServer l s)).Nodup := by
  induction l with
  | nil => simp [updateUpstreamServer, memberIPs]
  | cons e rest ih =>
    rw [memberIPs, List.map_cons, List.nodup_cons] at h
    by_cases he : e.IP = s.IP
    · rw [updateUpstreamServer]
      simp only [he, if_true]
      rw [memberIPs, List.map_cons, List.nodup_cons]
      exact ⟨he ▸ h.1, h.2⟩
    · rw [updateUpstreamServer]
      simp only [he, if_false]
      rw [memberIPs, List.map_cons, List.nodup_cons]
      refine ⟨fun hmem => ?_, ih h.2⟩
      rcases mem_memberIPs_update rest s e.IP hmem with hmem2 | heq
      · exact h.1 hmem2
      · exact he heq

theorem removeUpstreamServer_sublist (l : List UpstreamServer) (ip : String) :
    List.Sublist (removeUpstreamServer l ip) l := by
  induction l with
  | nil => simp [removeUpstreamServer]
  | cons e rest ih =>
    by_cases h : e.IP = ip
    · simp [removeUpstreamServer, h]
    · simpa [removeUpstreamServer, h] using ih.cons₂ e

theorem nodup_memberIPs_remove (l : List UpstreamServer) (ip : String)
    (h : (memberIPs l).Nodup) : (memberIPs (removeUpstreamServer l ip)).Nodup := by
  have hsub : List.Sublist (memberIPs (removeUpstreamServer l ip)) (memberIPs l) := by
    unfold memberIPs
    exact List.Sublist.map _ (removeUpstreamServer_sublist l ip)
  exact List.Nodup.sublist hsub h

theorem lookupMember_eq_none_of_not_mem (l : List UpstreamServer) (ip : String)
    (h : ip ∉ memberIPs l) : lookupMember l ip = none := by
  induction l with
  | nil => simp [lookupMember]
  | cons e rest ih =>
    simp [memberIPs] at h
    have h1 : e.IP ≠ ip := fun hh => h.1 hh.symm
    have h2 : ip ∉ memberIPs rest := by
      simp [memberIPs]
      intro x hx
      exact fun hh => h.2 x hx hh
    simp [lookupMember, h1, ih h2]

theorem lookupMember_remove_self (l : List UpstreamServer) (ip : String)
    (h : (memberIPs l).Nodup) : lookupMember (removeUpstreamServer l ip) ip = none := by
  induction l with
  | nil => simp [removeUpstreamServer, lookupMember]
  | cons e rest ih =>
    rw [memberIPs, List.map_cons, List.nodup_cons] at h
    by_cases he : e.IP = ip
    · rw [removeUpstreamServer]
      simp only [he, if_true]
      exact lookupMember_eq_none_of_not_mem rest ip (he ▸ h.1)
    · rw [removeUpstreamServer]
      simp only [he, if_false]
      simp [lookupMember, he, ih h.2]

theorem lookupMember_remove_ne (l : List UpstreamServer) (k ip : String)
    (h : ip ≠ k) :
    lookupMember (removeUpstreamServer l k) ip = lookupMember l ip := by
  induction l with
  | nil => simp [removeUpstreamServer]
  | cons e rest ih =>
    by_cases he : e.IP = k
    · have hki : ¬ k = ip := fun hh => h hh.symm
      simp [removeUpstreamServer, he, lookupMember, hki]
    · by_cases hei : e.IP = ip
      · simp [removeUpstreamServer, he, lookupMember, hei, h, Ne.symm h]
      · simp [removeUpstreamServer, he, lookupMember, hei, ih]

theorem applyUpstreamOp_invariant (l : List UpstreamServer) (op : UpstreamOp)
    (h : (memberIPs l).Nodup) :
    (memberIPs (applyUpstreamOp l op)).Nodup ∧
    ∀ ip, lookupMember (applyUpstreamOp l op) ip = specMapStep (lookupMember l) op ip := by
  cases op with
  | upsert server =>
    refine ⟨nodup_memberIPs_update l server h, fun ip => ?_⟩
    by_cases hip : ip = server.IP
    · subst hip
      simp [applyUpstreamOp, specMapStep, lookupMember_update_self]
    · simp [applyUpstreamOp, specMapStep, hip, lookupMember_update_ne l server ip hip]
  | remove k =>
    refine ⟨nodup_memberIPs_remove l k h, fun ip => ?_⟩
    by_cases hip : ip = k
    · subst hip
      simp [applyUpstreamOp, specMapStep, lookupMember_remove_self l ip h]
    · simp [applyUpstreamOp, specMapStep, hip, lookupMember_remove_ne l k ip hip]

theorem foldl_upstream_invariant (ops : List UpstreamOp) :
    ∀ l : List UpstreamServer, (memberIPs l).Nodup →
      (memberIPs (ops.foldl applyUpstreamOp l)).Nodup ∧
      ∀ ip, lookupMember (ops.foldl applyUpstreamOp l) ip =
        (ops.foldl specMapStep (lookupMember l)) ip := by
  induction ops with
  | nil => intro l h; exact ⟨h, fun ip => rfl⟩
  | cons op rest ih =>
    intro l h
    have hstep := applyUpstreamOp_invariant l op h
    have hrec := ih (applyUpstreamOp l op) hstep.1
    refine ⟨hrec.1, fun ip => ?_⟩
    rw [List.foldl_cons, List.foldl_cons]
    have hfun : specMapStep (lookupMember l) op = lookupMember (applyUpstreamOp l op) :=
      funext fun key => (hstep.2 key).symm
    rw [hfun]
    exact hrec.2 ip

theorem mapFind_mapDelete_ne {α : Type} (l : List (String × α)) (k k' : String)
    (h : k ≠ k') : mapFind (mapDelete l k) k' = mapFind l k' := by
  induction l with
  | nil => simp [mapDelete]
  | cons p rest ih =>
    obtain ⟨k0, v0⟩ := p
    by_cases h0 : k0 = k
    · have hne : k0 ≠ k' := fun hh => h (h0.symm.trans hh)
      simp [mapDelete, h0, mapFind, hne, h, ih]
    · simp [mapDelete, h0, mapFind, ih]

theorem mapFind_generateHTTPConfig (exec : HTTPTemplateExec) (st : ManagerState)
    (hc : HTTPConfig) (k : String) :
    mapFind (generateHTTPConfig exec st hc).httpConfigs k = none ∨
    mapFind (generateHTTPConfig exec st hc).httpConfigs k = mapFind st.httpConfigs k := by
  unfold generateHTTPConfig
  by_cases he : hc.Upstream.isEmpty
  · rw [if_pos he]
    unfold deleteHTTPConfig
    by_cases hk : hc.ServiceName = k
    · left
      simpa [hk] using mapFind_mapDelete_self st.httpConfigs k
    · right
      simpa using mapFind_mapDelete_ne st.httpConfigs hc.ServiceName k hk
  · rw [if_neg he]
    right
    rfl

theorem mapFind_generateStreamConfig (exec : StreamTemplateExec) (st : ManagerState)
    (sc : StreamConfig) (k : String) :
    mapFind (generateStreamConfig exec st sc).streamConfigs k = none ∨
    mapFind (generateStreamConfig exec st sc).streamConfigs k = mapFind st.streamConfigs k := by
  unfold generateStreamConfig
  by_cases he : sc.Upstream.isEmpty ∧ sc.EnableSNI = false
  · rw [if_pos he]
    unfold deleteStreamConfig
    by_cases hk : sc.ServiceName = k
    · left
      simpa [hk] using mapFind_mapDelete_self st.streamConfigs k
    · right
      simpa using mapFind_mapDelete_ne st.streamConfigs sc.ServiceName k hk
  · rw [if_neg he]
    right
    rfl

theorem updateHTTPService_preserves (hexec : HTTPTemplateExec) (st : ManagerState)
    (service : ServiceConfig) (containerIP containerPort : String)
    (hc hc2 : HTTPConfig)
    (h1 : mapFind st.httpConfigs service.Name = some hc)
    (h2 : mapFind (updateHTTPService hexec st service containerIP containerPort).httpConfigs
      service.Name = some hc2) :
    hc2.ServiceName = hc.ServiceName ∧ hc2.Domain = hc.Domain ∧
    hc2.Path = hc.Path ∧ hc2.ProxyConfig = hc.ProxyConfig := by
  unfold updateHTTPService at h2
  rw [h1] at h2
  dsimp only at h2
  by_cases hcond : containerIP ≠ "" ∧ containerPort ≠ ""
  · rw [if_pos hcond] at h2
    rcases mapFind_generateHTTPConfig hexec _ _ service.Name with hnone | heq
    · rw [hnone] at h2
      cases h2
    · rw [heq] at h2
      rw [mapFind_mapSet_self] at h2
      cases h2
      simp
  · rw [if_neg hcond] at h2
    rcases mapFind_generateHTTPConfig hexec _ _ service.Name with hnone | heq
    · rw [hnone] at h2
      cases h2
    · rw [heq] at h2
      rw [mapFind_mapSet_self] at h2
      cases h2
      simp

theorem updateStreamService_preserves (sexec : StreamTemplateExec) (st : ManagerState)
    (service : ServiceConfig) (containerIP containerPort : String)
    (sc sc2 : StreamConfig)
    (h1 : mapFind st.streamConfigs service.Name = some sc)
    (h2 : mapFind (updateStreamService sexec st service containerIP containerPort).streamConfigs
      service.Name = some sc2) :
    sc2.ServiceName = sc.ServiceName ∧ sc2.ListenPort = sc.ListenPort ∧
    sc2.EnableSNI = sc.EnableSNI ∧ sc2.DomainRoutes = sc.DomainRoutes ∧
    sc2.StaticUpstreams = sc.StaticUpstreams := by
  unfold updateStreamService at h2
  rw [h1] at h2
  dsimp only at h2
  by_cases hcond : containerIP ≠ "" ∧ containerPort ≠ ""
  · rw [if_pos hcond] at h2
    rcases mapFind_generateStreamConfig sexec _ _ service.Name with hnone | heq
    · rw [hnone] at h2
      cases h2
    · rw [heq] at h2
      rw [mapFind_mapSet_self] at h2
      cases h2
      simp
  · rw [if_neg hcond] at h2
    rcases mapFind_generateStreamConfig sexec _ _ service.Name with hnone | heq
    · rw [hnone] at h2
      cases h2
    · rw [heq] at h2
      rw [mapFind_mapSet_self] at h2
      cases h2
      simp

theorem mapDelete_mapDelete {α : Type} (l : List (String × α)) (k : String) :
    mapDelete (mapDelete l k) k = mapDelete l k := by
  induction l with
  | nil => simp [mapDelete]
  | cons p rest ih =>
    obtain ⟨k0, v0⟩ := p
    by_cases h0 : k0 = k
    · simp [mapDelete, h0, ih]
    · simp [mapDelete, h0, ih]

theorem string_append_ne_empty (s t : String) (ht : t.length ≠ 0) : s ++ t ≠ "" := by
  intro h
  have hlen := congrArg String.length h
  rw [String.length_append] at hlen
  have hzero : ("" : String).length = 0 := rfl
  rw [hzero] at hlen
  omega

/-! ## Claim theorems -/

/-- C1: for every sequence of upsert (UpdateService with non-empty IP
and port) and remove (UpdateService with empty IP or port) operations
on a service's member list, the resulting list contains at most one
entry per IP address, and its contents equal the net effect of
replaying the sequence as a finite map keyed by address, with upsert as
map-assignment (a repeated upsert for the same IP replaces the stored
port) and remove as map-deletion. -/
theorem claim1_upsert_remove_replay :
    ∀ ops : List UpstreamOp,
      (memberIPs (runUpstreamOps ops)).Nodup ∧
      ∀ ip, lookupMember (runUpstreamOps ops) ip = runSpecMap ops ip := by
  intro ops
  have h := foldl_upstream_invariant ops [] (by simp [memberIPs])
  refine ⟨h.1, fun ip => ?_⟩
  have heq : lookupMember ([] : List UpstreamServer) = fun _ : String => none :=
    funext fun _ => rfl
  have hip := h.2 ip
  rw [runUpstreamOps, runSpecMap, ← heq]
  exact hip

/-- C6: reload is all-or-nothing: whenever loading or validating the
declared configuration file fails, the in-memory configuration is left
entirely unchanged, and on success it is replaced as a single unit by
exactly what Load produced. -/
theorem claim6_reload_all_or_nothing :
    ∀ (parse : String → Option YamlConfig) (fs : String → Option String)
      (mtime : String → Option Int) (c : ConfigState),
      ((configReload parse fs mtime c).2 ≠ none →
        (configReload parse fs mtime c).1 = c) ∧
      ((configReload parse fs mtime c).2 = none →
        configLoad parse fs mtime c.filePath = .ok (configReload parse fs mtime c).1) := by
  intro parse fs mtime c
  cases h : configLoad parse fs mtime c.filePath with
  | error e => simp [configReload, h]
  | ok c2 => simp [configReload, h]

/-- C10: GetServiceByContainerName compares names after stripping one
leading slash from each side, returns the first declared service whose
stripped container_name equals the stripped reported name (so under a
duplicate container_name misconfiguration the earliest declaration
wins), and returns none exactly when no declared name matches. -/
theorem claim10_first_match_deterministic :
    ∀ (services : List ServiceConfig) (containerName : String),
      (∀ s, GetServiceByContainerName services containerName = some s →
        stripSlash s.ContainerName = stripSlash containerName ∧
        ∃ pre post, services = pre ++ s :: post ∧
          ∀ t ∈ pre, stripSlash t.ContainerName ≠ stripSlash containerName) ∧
      (GetServiceByContainerName services containerName = none ↔
        ∀ t ∈ services, stripSlash t.ContainerName ≠ stripSlash containerName) := by
  intro services containerName
  induction services with
  | nil => simp [GetServiceByContainerName]
  | cons a rest ih =>
    constructor
    · intro s hs
      by_cases h : stripSlash a.ContainerName = stripSlash containerName
      · rw [GetServiceByContainerName] at hs
        simp [h] at hs
        subst hs
        exact ⟨h, [], rest, rfl, by simp⟩
      · rw [GetServiceByContainerName] at hs
        simp [h] at hs
        obtain ⟨hmatch, pre, post, heq, hpre⟩ := ih.1 s hs
        refine ⟨hmatch, a :: pre, post, by simp [heq], ?_⟩
        intro t ht
        rcases List.mem_cons.mp ht with rfl | ht2
        · exact h
        · exact hpre t ht2
    · rw [GetServiceByContainerName]
      by_cases h : stripSlash a.ContainerName = stripSlash containerName
      · simp [h]
      · simp [h, ih.2]

/-- C9: on a registry entry that already exists, upsert and remove
mutate only the member list: the http entry's ServiceName, Domain, Path
and ProxyConfig, and the stream entry's ServiceName, ListenPort,
EnableSNI, DomainRoutes and StaticUpstreams keep the values captured at
creation, whatever (possibly reloaded, different) service configuration
the operation is called with. -/
theorem claim9_entry_fields_never_refreshed :
    ∀ (hexec : HTTPTemplateExec) (sexec : StreamTemplateExec) (st : ManagerState)
      (service : ServiceConfig) (containerIP containerPort : String)
      (hc hc2 : HTTPConfig) (sc sc2 : StreamConfig),
      (mapFind st.httpConfigs service.Name = some hc →
        mapFind (updateHTTPService hexec st service containerIP containerPort).httpConfigs
          service.Name = some hc2 →
        hc2.ServiceName = hc.ServiceName ∧ hc2.Domain = hc.Domain ∧
        hc2.Path = hc.Path ∧ hc2.ProxyConfig = hc.ProxyConfig) ∧
      (mapFind st.streamConfigs service.Name = some sc →
        mapFind (updateStreamService sexec st service containerIP containerPort).streamConfigs
          service.Name = some sc2 →
        sc2.ServiceName = sc.ServiceName ∧ sc2.ListenPort = sc.ListenPort ∧
        sc2.EnableSNI = sc.EnableSNI ∧ sc2.DomainRoutes = sc.DomainRoutes ∧
        sc2.StaticUpstreams = sc.StaticUpstreams) := by
  intro hexec sexec st service containerIP containerPort hc hc2 sc sc2
  exact ⟨fun h1 h2 =>
      updateHTTPService_preserves hexec st service containerIP containerPort hc hc2 h1 h2,
    fun h1 h2 =>
      updateStreamService_preserves sexec st service containerIP containerPort sc sc2 h1 h2⟩

/-- C2, evaluated at the failing input: the stop event for the matched,
validated api container whose address 192.168.31.1 was previously
registered does not remove that member (handleContainerStop passes a
nil container, so removeUpstreamServer searches for the empty IP), the
entry keeps its member, the on-disk artifact is rewritten rather than
deleted, and the reload command still fires. -/
theorem claim2_stop_event_removes_nothing :
    (handleContainerStop shippedHTTPTemplateExec emptyStreamTemplateExec [apiService]
      registeredState (some apiUnboundContainer)).2 = true ∧
    mapFind (handleContainerStop shippedHTTPTemplateExec emptyStreamTemplateExec [apiService]
      registeredState (some apiUnboundContainer)).1.httpConfigs "api-service"
      = some apiHTTPEntry ∧
    (mapFind (handleContainerStop shippedHTTPTemplateExec emptyStreamTemplateExec [apiService]
      registeredState (some apiUnboundContainer)).1.fs apiArtifactPath).isSome = true := by
  refine ⟨?_, ?_, ?_⟩ <;> rfl

/-- C5, evaluated at the failing input: for the README example service
(name api-service, upstream_name api_backend) with one registered
member, the artifact written after a start event names the upstream
block and the proxy_pass target by the service name; api_backend
appears nowhere in the artifact. -/
theorem claim5_artifact_ignores_upstream_name :
    apiService.UpstreamName = "api_backend" ∧
    containsSubstring ((mapFind (handleContainerStart shippedHTTPTemplateExec
      emptyStreamTemplateExec [apiService] freshState
      (some apiRunningContainer)).1.fs apiArtifactPath).getD "")
      "upstream api-service \x7b" = true ∧
    containsSubstring ((mapFind (handleContainerStart shippedHTTPTemplateExec
      emptyStreamTemplateExec [apiService] freshState
      (some apiRunningContainer)).1.fs apiArtifactPath).getD "")
      "proxy_pass http://api-service/;" = true ∧
    containsSubstring ((mapFind (handleContainerStart shippedHTTPTemplateExec
      emptyStreamTemplateExec [apiService] freshState
      (some apiRunningContainer)).1.fs apiArtifactPath).getD "")
      "api_backend" = false := by
  refine ⟨?_, ?_, ?_, ?_⟩ <;> rfl

/-- C3 counterexample: with one member and the template file missing,
materialization does not skip the write: the previous artifact content
"previous artifact" is replaced by the empty string. -/
theorem claim3_render_failure_overwrites_artifact :
    mapFind missingTemplateState.fs apiArtifactPath = some "previous artifact" ∧
    mapFind (generateHTTPConfig shippedHTTPTemplateExec missingTemplateState
      apiHTTPEntry).fs apiArtifactPath = some "" := by
  refine ⟨?_, ?_⟩ <;> rfl

/-- C3 as amended: when the member set is non-empty and rendering fails
(template missing, unparsable or failing to execute), the failure does
not escape as a crash and no error is returned, but the write is not
skipped: the empty string is written over the service's artifact, and
only the filesystem changes. -/
theorem claim3_amended_render_failure_writes_empty :
    ∀ (exec : HTTPTemplateExec) (st : ManagerState) (hc : HTTPConfig),
      hc.Upstream.isEmpty = false →
      httpRenderResult exec st hc = .error () →
      (generateHTTPConfig exec st hc).fs =
        mapSet st.fs (joinPath st.config.Global.NginxConfigDir
          (hc.ServiceName ++ ".conf")) "" ∧
      (generateHTTPConfig exec st hc).httpConfigs = st.httpConfigs ∧
      (generateHTTPConfig exec st hc).streamConfigs = st.streamConfigs ∧
      (generateHTTPConfig exec st hc).config = st.config := by
  intro exec st hc hne hfail
  have hcond : ¬ (hc.Upstream.isEmpty = true) := by simp [hne]
  unfold generateHTTPConfig
  rw [if_neg hcond]
  unfold buildHTTPConfigContent
  rw [hfail]
  exact ⟨rfl, rfl, rfl, rfl⟩

/-- C3 witness: the amended statement at the concrete broken-template
state. -/
theorem claim3_amended_render_failure_writes_empty_witness :
    (generateHTTPConfig shippedHTTPTemplateExec missingTemplateState apiHTTPEntry).fs =
      mapSet missingTemplateState.fs
        (joinPath missingTemplateState.config.Global.NginxConfigDir
          (apiHTTPEntry.ServiceName ++ ".conf")) "" ∧
    (generateHTTPConfig shippedHTTPTemplateExec missingTemplateState
      apiHTTPEntry).httpConfigs = missingTemplateState.httpConfigs ∧
    (generateHTTPConfig shippedHTTPTemplateExec missingTemplateState
      apiHTTPEntry).streamConfigs = missingTemplateState.streamConfigs ∧
    (generateHTTPConfig shippedHTTPTemplateExec missingTemplateState
      apiHTTPEntry).config = missingTemplateState.config :=
  claim3_amended_render_failure_writes_empty shippedHTTPTemplateExec
    missingTemplateState apiHTTPEntry rfl rfl

/-- C7 counterexample: a stream service with SNI enabled and an empty
member set is not deleted by materialization: the artifact stays on
disk (rewritten) and the in-memory entry is kept. -/
theorem claim7_sni_empty_members_keeps_artifact :
    sniStreamEntry.Upstream = [] ∧
    (mapFind (generateStreamConfig emptyStreamTemplateExec sniState
      sniStreamEntry).fs sniArtifactPath).isSome = true ∧
    mapFind (generateStreamConfig emptyStreamTemplateExec sniState
      sniStreamEntry).streamConfigs "sni-service" = some sniStreamEntry := by
  refine ⟨?_, ?_, ?_⟩ <;> rfl

/-- C7 as amended: for every http service, and for every stream service
without SNI enabled, materializing an empty member set deletes the
artifact (an already absent file is also a success: the model's delete
is total), drops the in-memory entry, and is idempotent. -/
theorem claim7_amended_empty_member_materialization :
    ∀ (hexec : HTTPTemplateExec) (sexec : StreamTemplateExec) (st : ManagerState)
      (hc : HTTPConfig) (sc : StreamConfig),
      (hc.Upstream = [] →
        mapFind (generateHTTPConfig hexec st hc).httpConfigs hc.ServiceName = none ∧
        mapFind (generateHTTPConfig hexec st hc).fs
          (joinPath st.config.Global.NginxConfigDir (hc.ServiceName ++ ".conf")) = none ∧
        generateHTTPConfig hexec (generateHTTPConfig hexec st hc) hc =
          generateHTTPConfig hexec st hc) ∧
      (sc.Upstream = [] → sc.EnableSNI = false →
        mapFind (generateStreamConfig sexec st sc).streamConfigs sc.ServiceName = none ∧
        mapFind (generateStreamConfig sexec st sc).fs
          (joinPath st.config.Global.StreamConfigDir (sc.ServiceName ++ ".conf")) = none ∧
        generateStreamConfig sexec (generateStreamConfig sexec st sc) sc =
          generateStreamConfig sexec st sc) := by
  intro hexec sexec st hc sc
  constructor
  · intro hemp
    unfold generateHTTPConfig deleteHTTPConfig
    simp [hemp, mapFind_mapDelete_self, mapDelete_mapDelete]
  · intro hemp hsni
    unfold generateStreamConfig deleteStreamConfig
    simp [hemp, hsni, mapFind_mapDelete_self, mapDelete_mapDelete]

/-- C8 counterexample: a stop event whose processing removes no member
(here: nothing was ever registered for the matched service) still
invokes the reload command. -/
theorem claim8_reload_fires_without_removal :
    mapFind freshState.httpConfigs "api-service" = none ∧
    (handleContainerStop shippedHTTPTemplateExec emptyStreamTemplateExec [apiService]
      freshState (some apiUnboundContainer)).2 = true := by
  refine ⟨?_, ?_⟩ <;> rfl

/-- C8 as amended: processing a stop or die event for a matched,
validated service always invokes the reload command, whether or not a
member was removed, because updateNginxConfig reloads whenever
UpdateService returns no error and a validated service type is always
http or stream. -/
theorem claim8_amended_reload_always :
    ∀ (hexec : HTTPTemplateExec) (sexec : StreamTemplateExec) (st : ManagerState)
      (service : ServiceConfig),
      ValidateService service = .ok () →
      (updateNginxConfig hexec sexec st service none).2 = true := by
  intro hexec sexec st service hval
  have htype : service.ServiceType = "http" ∨ service.ServiceType = "stream" := by
    by_cases h1 : service.ServiceType = "http"
    · exact Or.inl h1
    · by_cases h2 : service.ServiceType = "stream"
      · exact Or.inr h2
      · exfalso
        unfold ValidateService at hval
        split at hval
        · exact absurd hval (by simp)
        · rw [if_pos ⟨h1, h2⟩] at hval
          exact absurd hval (by simp)
  rcases htype with hh | hh <;>
    simp [updateNginxConfig, applyServiceUpdate, UpdateService, hh]

/-- C8 witness: the amended statement at the registered concrete
state. -/
theorem claim8_amended_reload_always_witness :
    (updateNginxConfig shippedHTTPTemplateExec emptyStreamTemplateExec registeredState
      apiService none).2 = true :=
  claim8_amended_reload_always shippedHTTPTemplateExec emptyStreamTemplateExec
    registeredState apiService rfl

/-- C4 counterexample: for the api container on the default bridge
network with no published binding at all, port resolution does not fail
but returns the declared target port, and the caller proceeds to update
the registry with it instead of skipping. -/
theorem claim4_bridge_without_binding_proceeds :
    getContainerPort apiUnboundContainer apiService = "9000/tcp" ∧
    (updateNginxConfig shippedHTTPTemplateExec emptyStreamTemplateExec freshState
      apiService (some apiUnboundContainer)).2 = true ∧
    mapFind (updateNginxConfig shippedHTTPTemplateExec emptyStreamTemplateExec freshState
      apiService (some apiUnboundContainer)).1.httpConfigs "api-service"
      = some { ServiceName := "api-service", Domain := "api.example.com", Path := "/",
               Upstream := [{ IP := "192.168.31.1", Port := "9000/tcp" }],
               ProxyConfig := none } := by
  refine ⟨?_, ?_, ?_⟩ <;> rfl

/-- C4 as amended: on the default bridge network the host-side binding
of the declared target port is tried as tcp then udp, but when neither
exists resolution does not fail: it falls back to the exposed container
port (tcp then udp) and finally to the declared target port as tcp; and
getContainerPort never returns the empty string, so the caller's
skip-on-empty-port branch cannot be taken. -/
theorem claim4_amended_bridge_fallback :
    ∀ (container : ContainerInfo) (service : ServiceConfig),
      (mapFind container.Networks "host" = none →
        (mapFind container.Networks "bridge").isSome = true →
        firstHostPort container.Ports (toString (targetPortOf service) ++ "/tcp") = none →
        firstHostPort container.Ports (toString (targetPortOf service) ++ "/udp") = none →
        getContainerPort container service =
          (if (mapFind container.Ports (toString (targetPortOf service) ++ "/tcp")).isSome
           then toString (targetPortOf service) ++ "/tcp"
           else if (mapFind container.Ports
              (toString (targetPortOf service) ++ "/udp")).isSome
           then toString (targetPortOf service) ++ "/udp"
           else toString (targetPortOf service) ++ "/tcp")) ∧
      getContainerPort container service ≠ "" := by
  intro container service
  have htcp : ∀ x : String, x ++ "/tcp" ≠ "" :=
    fun x => string_append_ne_empty x "/tcp" (by decide)
  have hudp : ∀ x : String, x ++ "/udp" ≠ "" :=
    fun x => string_append_ne_empty x "/udp" (by decide)
  constructor
  · intro h1 h2 h3 h4
    simp [getContainerPort, h1, h2, h3, h4]
  · by_cases c1 : (mapFind container.Networks "host").isSome = true
    · simp [getContainerPort, c1]
      exact htcp _
    · by_cases c2 : (mapFind container.Networks "bridge").isSome = true
      · cases hm1 : firstHostPort container.Ports
          (toString (targetPortOf service) ++ "/tcp") with
        | some hostPort =>
          simp [getContainerPort, c1, c2, hm1]
          exact htcp _
        | none =>
          cases hm2 : firstHostPort container.Ports
            (toString (targetPortOf service) ++ "/udp") with
          | some hostPort =>
            simp [getContainerPort, c1, c2, hm1, hm2]
            exact hudp _
          | none =>
            by_cases e1 : (mapFind container.Ports
              (toString (targetPortOf service) ++ "/tcp")).isSome = true
            · simp [getContainerPort, c1, c2, hm1, hm2, e1]
              exact htcp _
            · by_cases e2 : (mapFind container.Ports
                (toString (targetPortOf service) ++ "/udp")).isSome = true
              · simp [getContainerPort, c1, c2, hm1, hm2, e1, e2]
                exact hudp _
              · simp [getContainerPort, c1, c2, hm1, hm2, e1, e2]
                exact htcp _
      · by_cases e1 : (mapFind container.Ports
          (toString (targetPortOf service) ++ "/tcp")).isSome = true
        · simp [getContainerPort, c1, c2, e1]
          exact htcp _
        · by_cases e2 : (mapFind container.Ports
            (toString (targetPortOf service) ++ "/udp")).isSome = true
          · simp [getContainerPort, c1, c2, e1, e2]
            exact hudp _
          · simp [getContainerPort, c1, c2, e1, e2]
            exact htcp _

end DockerTool
